import Mathlib

/-!
Shallow embedding of `src/paxos.py` (single-decree Paxos: Proposer,
Acceptor, Learner and the `receive` dispatcher) together with proofs
checking the natural-language specification against it.

The source is Python 3. Two aspects of Python 3 semantics matter and are
modelled explicitly:

* attribute access on a name the message class never sets raises
  `AttributeError` before anything else in the statement runs (the source
  contains the typos `msg.propsal_id` in `Acceptor.receive_prepare`,
  `msg.promised_id` in `Acceptor.receive_accept`, and `msg.prosal_value`
  in `Learner.receive_accepted`);
* an order comparison (`<`, `<=`, `>`, `>=`) between a `ProposalID` and
  `None` raises `TypeError` (unlike Python 2, where `None` compared below
  everything).

Handlers are therefore embedded as functions returning
`Except PyErr result × state`: the returned state carries exactly the
mutations the Python object would have received before the exception (if
any) was raised, because in Python an exception propagates to the caller
while earlier attribute assignments on `self` persist.
-/

namespace Paxos

/-- Python exceptions that the embedded code can raise. -/
inductive PyErr where
  | attrError (name : String)
  | typeError
  | keyError
  | assertError
  | invalidMessageError
  deriving Repr, DecidableEq

/-- The opaque `proposal_value` payload; the core only ever tests it for
equality, so a concrete equatable type stands in for it. -/
abbrev Value := String

/-- `ProposalID`: a `(number, uid)` pair, compared lexicographically
(`number` first, then `uid`), mirroring Python named-tuple comparison. -/
structure ProposalID where
  number : Int
  uid : String
  deriving Repr, DecidableEq

/-- Lexicographic strict order on proposal ids, exactly Python's tuple `<`. -/
def pidLt (a b : ProposalID) : Prop :=
  a.number < b.number ∨ (a.number = b.number ∧ a.uid < b.uid)

instance (a b : ProposalID) : Decidable (pidLt a b) := by
  unfold pidLt; exact inferInstance

/-- Lexicographic `<=` on proposal ids (Python tuple `<=`). -/
def pidLe (a b : ProposalID) : Prop := pidLt a b ∨ a = b

instance (a b : ProposalID) : Decidable (pidLe a b) := by
  unfold pidLe; exact inferInstance

theorem pidLe_refl (a : ProposalID) : pidLe a a := Or.inr rfl

theorem pidLt_trans {a b c : ProposalID} (h1 : pidLt a b) (h2 : pidLt b c) :
    pidLt a c := by
  rcases h1 with h1 | ⟨e1, u1⟩ <;> rcases h2 with h2 | ⟨e2, u2⟩
  · exact Or.inl (lt_trans h1 h2)
  · exact Or.inl (e2 ▸ h1)
  · exact Or.inl (e1 ▸ h2)
  · exact Or.inr ⟨e1.trans e2, lt_trans u1 u2⟩

theorem pidLe_trans {a b c : ProposalID} (h1 : pidLe a b) (h2 : pidLe b c) :
    pidLe a c := by
  rcases h1 with h1 | rfl
  · rcases h2 with h2 | rfl
    · exact Or.inl (pidLt_trans h1 h2)
    · exact Or.inl h1
  · exact h2

theorem pidLe_of_lt {a b : ProposalID} (h : pidLt a b) : pidLe a b := Or.inl h

/-- Lexicographic order is total: a failed `<` test means `>=`. -/
theorem pidLe_of_not_lt {a b : ProposalID} (h : ¬ pidLt a b) : pidLe b a := by
  unfold pidLt at h
  push_neg at h
  rcases lt_trichotomy b.number a.number with hn | hn | hn
  · exact Or.inl (Or.inl hn)
  · rcases lt_trichotomy b.uid a.uid with hu | hu | hu
    · exact Or.inl (Or.inr ⟨hn, hu⟩)
    · refine Or.inr ?_
      cases a; cases b
      simp_all
    · exact absurd hu (not_lt.mpr (h.2 hn.symm))
  · exact absurd hn (not_lt.mpr h.1)

theorem pidLe_number_le {a b : ProposalID} (h : pidLe a b) :
    a.number ≤ b.number := by
  rcases h with h | rfl
  · rcases h with h | ⟨e, _⟩
    · exact le_of_lt h
    · exact le_of_eq e
  · exact le_refl _

/-- Python 3 comparison of two possibly-`None` proposal ids with `>`:
raises `TypeError` when either side is `None`. -/
def pyGtOpt : Option ProposalID → Option ProposalID → Except PyErr Bool
  | some a, some b => .ok (decide (pidLt b a))
  | _, _ => .error .typeError

/-- Python 3 comparison `pid >= rhs` where `rhs` may be `None`:
raises `TypeError` when `rhs` is `None`. -/
def pyGeSomeOpt : ProposalID → Option ProposalID → Except PyErr Bool
  | a, some b => .ok (decide (pidLe b a))
  | _, none => .error .typeError

/- ## Message classes -/

/-- `Prepare` message: `from_uid`, `proposal_id`. -/
structure PrepareMsg where
  from_uid : String
  proposal_id : ProposalID
  deriving Repr, DecidableEq

/-- `Nack` message. `promised_proposal_id` is whatever `promised_id` the
acceptor held, so it is optional. -/
structure NackMsg where
  from_uid : String
  proposer_uid : String
  proposal_id : ProposalID
  promised_proposal_id : Option ProposalID
  deriving Repr, DecidableEq

/-- `Promise` message; `last_accepted_id` / `last_accepted_value` are the
acceptor's possibly-absent accepted pair. -/
structure PromiseMsg where
  from_uid : String
  proposer_uid : String
  proposal_id : ProposalID
  last_accepted_id : Option ProposalID
  last_accepted_value : Option Value
  deriving Repr, DecidableEq

/-- `Accept` message: `from_uid`, `proposal_id`, `proposal_value`. -/
structure AcceptMsg where
  from_uid : String
  proposal_id : ProposalID
  proposal_value : Value
  deriving Repr, DecidableEq

/-- `Accepted` message: `from_uid`, `proposal_id`, `proposal_value`. -/
structure AcceptedMsg where
  from_uid : String
  proposal_id : ProposalID
  proposal_value : Value
  deriving Repr, DecidableEq

/-- `Resolution` message: `from_uid`, `value`. -/
structure ResolutionMsg where
  from_uid : String
  value : Value
  deriving Repr, DecidableEq

/-- The tagged union of all six message variants, used by the dispatcher. -/
inductive Msg where
  | prepare (m : PrepareMsg)
  | promise (m : PromiseMsg)
  | nack (m : NackMsg)
  | accept (m : AcceptMsg)
  | accepted (m : AcceptedMsg)
  | resolution (m : ResolutionMsg)
  deriving Repr, DecidableEq

/- ## Acceptor -/

/-- Acceptor durable state: `network_uid` plus the optional triple
`promised_id`, `accepted_id`, `accepted_value` (constructor defaults are
all `None`). -/
structure AcceptorState where
  network_uid : String
  promised_id : Option ProposalID
  accepted_id : Option ProposalID
  accepted_value : Option Value
  deriving Repr, DecidableEq

/-- Fresh acceptor, i.e. `Acceptor(network_uid)` with default arguments. -/
def Acceptor.init (network_uid : String) : AcceptorState :=
  ⟨network_uid, none, none, none⟩

/-- Replies an acceptor can produce: `Promise`, `Accepted` or `Nack`. -/
inductive AcceptorReply where
  | promise (m : PromiseMsg)
  | accepted (m : AcceptedMsg)
  | nack (m : NackMsg)
  deriving Repr, DecidableEq

/-- `Acceptor.receive_prepare` (src lines 247-264). The guard reads
`msg.propsal_id` — an attribute the `Prepare` class never sets — so every
call raises `AttributeError` before the comparison runs; no field of
`self` is assigned and no reply is produced. The `Promise` and `Nack`
branches of the source are unreachable. -/
def Acceptor.receive_prepare (s : AcceptorState) (_msg : PrepareMsg) :
    Except PyErr AcceptorReply × AcceptorState :=
  (.error (.attrError "propsal_id"), s)

/-- `Acceptor.receive_accept` (src lines 266-279). The guard
`msg.proposal_id >= self.promised_id` raises `TypeError` when
`promised_id` is `None`; when the guard is true the first statement of
the branch evaluates `msg.promised_id` — an attribute the `Accept` class
never sets — raising `AttributeError` before any assignment, so the
`Accepted` branch (src lines 272-275) never mutates state or returns.
Only the `Nack` branch is reachable. -/
def Acceptor.receive_accept (s : AcceptorState) (msg : AcceptMsg) :
    Except PyErr AcceptorReply × AcceptorState :=
  match pyGeSomeOpt msg.proposal_id s.promised_id with
  | .error e => (.error e, s)
  | .ok true => (.error (.attrError "promised_id"), s)
  | .ok false =>
      (.ok (.nack ⟨s.network_uid, msg.from_uid, msg.proposal_id, s.promised_id⟩), s)

/-- One inbound message to an acceptor, for reasoning over sequences. -/
inductive AcceptorOp where
  | prep (m : PrepareMsg)
  | acc (m : AcceptMsg)
  deriving Repr, DecidableEq

/-- State transition of one acceptor operation (reply discarded). -/
def acceptorStep (s : AcceptorState) : AcceptorOp → AcceptorState
  | .prep m => (Acceptor.receive_prepare s m).2
  | .acc m => (Acceptor.receive_accept s m).2

/-- Run a sequence of prepare/accept deliveries against an acceptor. -/
def runAcceptor (s : AcceptorState) (ops : List AcceptorOp) : AcceptorState :=
  ops.foldl acceptorStep s

/-- `<=` lifted to the optional `promised_id`, with absence as bottom. -/
def optPidLe : Option ProposalID → Option ProposalID → Prop
  | none, _ => True
  | some _, none => False
  | some a, some b => pidLe a b

instance (a b : Option ProposalID) : Decidable (optPidLe a b) := by
  unfold optPidLe
  cases a <;> cases b <;> exact inferInstance

/-- The acceptor data invariant from the spec: once `accepted_id` is set,
`accepted_id <= promised_id` (in particular `promised_id` is set) and
`accepted_value` is set. -/
def AccInv (s : AcceptorState) : Prop :=
  ∀ a, s.accepted_id = some a →
    (∃ p, s.promised_id = some p ∧ pidLe a p) ∧ s.accepted_value.isSome = true

instance (s : AcceptorState) : Decidable (AccInv s) := by
  unfold AccInv; exact inferInstance

theorem acceptorStep_eq (s : AcceptorState) (op : AcceptorOp) :
    acceptorStep s op = s := by
  cases op with
  | prep m => rfl
  | acc m =>
      simp only [acceptorStep, Acceptor.receive_accept]
      cases h : pyGeSomeOpt m.proposal_id s.promised_id with
      | error e => rfl
      | ok b => cases b <;> rfl

theorem runAcceptor_eq (s : AcceptorState) (ops : List AcceptorOp) :
    runAcceptor s ops = s := by
  induction ops with
  | nil => rfl
  | cons op rest ih =>
      simpa [runAcceptor, acceptorStep_eq] using ih

/- ## Proposer -/

/-- Proposer state (src lines 124-144). `promises_received` is declared as
a class annotation with no value, so the attribute does not exist until
`prepare()` first assigns it; that "attribute missing" state is modelled
as `none`, and reading it then is an `AttributeError`. `nacks_received`
has class default `None`. -/
structure ProposerState where
  network_uid : String
  quorum_size : Int
  leader : Bool
  proposed_value : Option Value
  proposal_id : ProposalID
  highest_accepted_id : Option ProposalID
  promises_received : Option (List String)
  nacks_received : Option (List String)
  current_prepare_msg : Option PrepareMsg
  current_accept_msg : Option AcceptMsg
  highest_proposal_id : ProposalID
  deriving Repr, DecidableEq

/-- `Proposer.__init__`: both proposal ids start at `(0, network_uid)`. -/
def Proposer.init (network_uid : String) (quorum_size : Int) : ProposerState :=
  { network_uid := network_uid
    quorum_size := quorum_size
    leader := false
    proposed_value := none
    proposal_id := ⟨0, network_uid⟩
    highest_accepted_id := none
    promises_received := none
    nacks_received := none
    current_prepare_msg := none
    current_accept_msg := none
    highest_proposal_id := ⟨0, network_uid⟩ }

/-- Python `len` of a set modelled as a duplicate-free list. -/
def pyLen (l : List String) : Int := Int.ofNat l.length

/-- Python `set.add`: no-op if the element is already present. -/
def setAdd (x : String) (l : List String) : List String :=
  if x ∈ l then l else l ++ [x]

/-- `Proposer.propose_value` (src lines 146-159): sets `proposed_value`
iff unset; if `leader`, returns (and stores) an `Accept`. -/
def Proposer.propose_value (s : ProposerState) (value : Value) :
    Option AcceptMsg × ProposerState :=
  match s.proposed_value with
  | some _ => (none, s)
  | none =>
      let s1 := { s with proposed_value := some value }
      if s1.leader then
        let am : AcceptMsg := ⟨s1.network_uid, s1.proposal_id, value⟩
        (some am, { s1 with current_accept_msg := some am })
      else
        (none, s1)

/-- `Proposer.prepare` (src lines 161-176): clears the leader flag, resets
both received sets, mints `(highest_proposal_id.number + 1, network_uid)`
as the new `proposal_id` and `highest_proposal_id`, and returns the
Prepare carrying it. -/
def Proposer.prepare (s : ProposerState) : PrepareMsg × ProposerState :=
  let newPid : ProposalID := ⟨s.highest_proposal_id.number + 1, s.network_uid⟩
  let pm : PrepareMsg := ⟨s.network_uid, newPid⟩
  (pm, { s with
          leader := false
          promises_received := some []
          nacks_received := some []
          proposal_id := newPid
          highest_proposal_id := newPid
          current_prepare_msg := some pm })

/-- `Proposer.observe_proposal` (src lines 178-188). The argument is
whatever the caller passes; `receive_nack` passes the Nack's possibly-
`None` `promised_proposal_id`, and `None > highest_proposal_id` raises
`TypeError` in Python 3. -/
def Proposer.observe_proposal (s : ProposerState) :
    Option ProposalID → Except PyErr Unit × ProposerState
  | none => (.error .typeError, s)
  | some pid =>
      if pidLt s.highest_proposal_id pid then
        (.ok (), { s with highest_proposal_id := pid })
      else
        (.ok (), s)

/-- `Proposer.receive_nack` (src lines 190-199): observe the promised id,
then if the Nack is for the current round and a round is in progress, add
the sender; on reaching exactly `quorum_size` nacks, call `prepare()` and
return its Prepare. -/
def Proposer.receive_nack (s : ProposerState) (msg : NackMsg) :
    Except PyErr (Option PrepareMsg) × ProposerState :=
  match Proposer.observe_proposal s msg.promised_proposal_id with
  | (.error e, s1) => (.error e, s1)
  | (.ok _, s1) =>
      if msg.proposal_id = s1.proposal_id then
        match s1.nacks_received with
        | none => (.ok none, s1)
        | some ns =>
            let ns1 := setAdd msg.from_uid ns
            let s2 := { s1 with nacks_received := some ns1 }
            if pyLen ns1 = s2.quorum_size then
              let (pm, s3) := Proposer.prepare s2
              (.ok (some pm), s3)
            else
              (.ok none, s2)
      else
        (.ok none, s1)

/-- `Proposer.receive_promise` (src lines 201-223). After the guard passes,
the sender is added to `promises_received` (src line 211) and only then is
`msg.last_accepted_id > self.highest_accepted_id` evaluated (src line
212); in Python 3 that comparison raises `TypeError` whenever either side
is `None`, and the already-performed set insertion persists. -/
def Proposer.receive_promise (s : ProposerState) (msg : PromiseMsg) :
    Except PyErr (Option AcceptMsg) × ProposerState :=
  if s.leader then (.ok none, s)
  else if msg.proposal_id ≠ s.proposal_id then (.ok none, s)
  else
    match s.promises_received with
    | none => (.error (.attrError "promises_received"), s)
    | some pr =>
        if msg.from_uid ∈ pr then (.ok none, s)
        else
          let s1 := { s with promises_received := some (setAdd msg.from_uid pr) }
          match pyGtOpt msg.last_accepted_id s1.highest_accepted_id with
          | .error e => (.error e, s1)
          | .ok gt =>
              let s2 :=
                if gt then
                  let s2a := { s1 with highest_accepted_id := msg.last_accepted_id }
                  match msg.last_accepted_value with
                  | some v => { s2a with proposed_value := some v }
                  | none => s2a
                else s1
              if pyLen (setAdd msg.from_uid pr) = s2.quorum_size then
                let s3 := { s2 with leader := true }
                match s3.proposed_value with
                | some v =>
                    let am : AcceptMsg := ⟨s3.network_uid, s3.proposal_id, v⟩
                    (.ok (some am), { s3 with current_accept_msg := some am })
                | none => (.ok none, s3)
              else
                (.ok none, s2)

/-- One driver-visible operation on a proposer. -/
inductive ProposerOp where
  | prep
  | propose (v : Value)
  | observe (pid : Option ProposalID)
  | nack (m : NackMsg)
  | promise (m : PromiseMsg)
  deriving Repr, DecidableEq

/-- State transition of one proposer operation (output discarded; on an
exception the partially mutated state is kept, as in Python). -/
def proposerStep (s : ProposerState) : ProposerOp → ProposerState
  | .prep => (Proposer.prepare s).2
  | .propose v => (Proposer.propose_value s v).2
  | .observe pid => (Proposer.observe_proposal s pid).2
  | .nack m => (Proposer.receive_nack s m).2
  | .promise m => (Proposer.receive_promise s m).2

/-- Run a sequence of operations against a proposer. -/
def runProposer (s : ProposerState) (ops : List ProposerOp) : ProposerState :=
  ops.foldl proposerStep s

/- ## Learner -/

/-- `Learner.ProposalStatus` (src lines 288-295). -/
structure ProposalStatus where
  accept_count : Int
  retain_count : Int
  acceptors : List String
  value : Value
  deriving Repr, DecidableEq

/-- Lookup in a Python dict modelled as an association list. -/
def dGet {α β : Type} [DecidableEq α] (l : List (α × β)) (k : α) : Option β :=
  (l.find? (fun p => decide (p.1 = k))).map (fun p => p.2)

/-- Assignment `d[k] = v` in a Python dict modelled as an association list. -/
def dSet {α β : Type} [DecidableEq α] (l : List (α × β)) (k : α) (v : β) :
    List (α × β) :=
  if (l.find? (fun p => decide (p.1 = k))).isSome then
    l.map (fun p => if p.1 = k then (k, v) else p)
  else
    l ++ [(k, v)]

/-- Deletion `del d[k]` in a Python dict modelled as an association list. -/
def dDel {α β : Type} [DecidableEq α] (l : List (α × β)) (k : α) :
    List (α × β) :=
  l.filter (fun p => decide (p.1 ≠ k))

/-- Learner state (src lines 297-306). `proposals` and `acceptors` are set
to `None` once the final value is chosen. -/
structure LearnerState where
  network_uid : String
  quorum_size : Int
  proposals : Option (List (ProposalID × ProposalStatus))
  acceptors : Option (List (String × ProposalID))
  final_value : Option Value
  final_acceptors : Option (List String)
  final_proposal_id : Option ProposalID
  deriving Repr, DecidableEq

/-- `Learner.__init__`. -/
def Learner.init (network_uid : String) (quorum_size : Int) : LearnerState :=
  { network_uid := network_uid
    quorum_size := quorum_size
    proposals := some []
    acceptors := some []
    final_value := none
    final_acceptors := none
    final_proposal_id := none }

/-- `Learner.receive_accepted` (src lines 308-354), statement by statement:

* post-resolution branch (src 316-323): `msg.proposal_id >=
  self.final_proposal_id` first (a `None` `final_proposal_id` would raise
  `TypeError`); when it is true, the `and`'s right operand reads
  `msg.prosal_value` — an attribute `Accepted` never sets — raising
  `AttributeError`, so `final_acceptors` is never extended; when it is
  false, the short-circuit skips the typo and a Resolution is returned;
* pre-resolution (src 325-327): `last_pn = self.acceptors.get(msg.from_uid)`
  is `None` on first contact from an acceptor, and `msg.proposal_id <=
  None` raises `TypeError` in Python 3, so the message is neither dropped
  as stale nor tallied;
* the remaining statements (src 329-354) mirror the source: re-point the
  acceptor, decrement/clean the old status (Python mutates the status
  object aliased inside the dict before `set.remove`, which raises
  `KeyError` when the element is absent, so the decrement persists),
  create/tally the new status, assert value agreement, and resolve on
  `accept_count == quorum_size`. -/
def Learner.receive_accepted (s : LearnerState) (msg : AcceptedMsg) :
    Except PyErr (Option ResolutionMsg) × LearnerState :=
  match s.final_value with
  | some fv =>
      match pyGeSomeOpt msg.proposal_id s.final_proposal_id with
      | .error e => (.error e, s)
      | .ok true => (.error (.attrError "prosal_value"), s)
      | .ok false => (.ok (some ⟨s.network_uid, fv⟩), s)
  | none =>
      match s.acceptors with
      | none => (.error (.attrError "get"), s)
      | some accMap =>
          match dGet accMap msg.from_uid with
          | none => (.error .typeError, s)
          | some lp =>
              if pidLe msg.proposal_id lp then (.ok none, s)
              else
                let s1 := { s with acceptors := some (dSet accMap msg.from_uid msg.proposal_id) }
                match s1.proposals with
                | none => (.error .typeError, s1)
                | some props =>
                    match dGet props lp with
                    | none => (.error .keyError, s1)
                    | some ps =>
                        let ps1 := { ps with retain_count := ps.retain_count - 1 }
                        let propsDec := dSet props lp ps1
                        if msg.from_uid ∈ ps1.acceptors then
                          let ps2 := { ps1 with acceptors := ps1.acceptors.erase msg.from_uid }
                          let props1 := dSet propsDec lp ps2
                          let props2 := if ps2.retain_count = 0 then dDel props1 lp else props1
                          let props3 :=
                            if (dGet props2 msg.proposal_id).isSome then props2
                            else dSet props2 msg.proposal_id ⟨0, 0, [], msg.proposal_value⟩
                          match dGet props3 msg.proposal_id with
                          | none => (.error .keyError, { s1 with proposals := some props3 })
                          | some cur =>
                              if msg.proposal_value = cur.value then
                                let cur1 := { cur with
                                  accept_count := cur.accept_count + 1
                                  retain_count := cur.retain_count + 1
                                  acceptors := setAdd msg.from_uid cur.acceptors }
                                let props4 := dSet props3 msg.proposal_id cur1
                                let s2 := { s1 with proposals := some props4 }
                                if cur1.accept_count = s2.quorum_size then
                                  let s3 := { s2 with
                                    final_proposal_id := some msg.proposal_id
                                    final_value := some msg.proposal_value
                                    final_acceptors := some cur1.acceptors
                                    proposals := none
                                    acceptors := none }
                                  (.ok (some ⟨s3.network_uid, msg.proposal_value⟩), s3)
                                else
                                  (.ok none, s2)
                              else
                                (.error .assertError, { s1 with proposals := some props3 })
                        else
                          (.error .keyError, { s1 with proposals := some propsDec })

/- ## Message dispatch -/

/-- Which `receive_<variant>` methods exist on an `Acceptor` instance
(src: `receive_prepare`, `receive_accept`). -/
def acceptorHandled : Msg → Bool
  | .prepare _ => true
  | .accept _ => true
  | _ => false

/-- Which `receive_<variant>` methods exist on a `Proposer` instance
(src: `receive_nack`, `receive_promise`). -/
def proposerHandled : Msg → Bool
  | .nack _ => true
  | .promise _ => true
  | _ => false

/-- Which `receive_<variant>` methods exist on a `Learner` instance
(src: `receive_accepted`). -/
def learnerHandled : Msg → Bool
  | .accepted _ => true
  | _ => false

/-- Which `receive_<variant>` methods exist on a `PaxosInstance`
(all of the above through multiple inheritance). -/
def paxosInstanceHandled (m : Msg) : Bool :=
  acceptorHandled m || proposerHandled m || learnerHandled m

/-- `MessageHandler.receive` (src lines 111-121), faithful to the source:
it looks the handler up with `getattr` and raises `InvalidMessageError`
when the lookup fails, but it never CALLS the handler it found — the
method body ends after the `raise`, so a supported message falls through
and `None` is returned with no state touched. -/
def MessageHandler.receive (handled : Msg → Bool) (msg : Msg) :
    Except PyErr Unit :=
  if handled msg then .ok () else .error .invalidMessageError

/- ## Proposer lemmas -/

/-- The proposer's internal invariant: the current round's id carries this
node's uid and never exceeds the highest id observed. -/
def PInv (s : ProposerState) : Prop :=
  s.proposal_id.uid = s.network_uid ∧ pidLe s.proposal_id s.highest_proposal_id

theorem prepare_spec (s : ProposerState) :
    Proposer.prepare s =
      (⟨s.network_uid, ⟨s.highest_proposal_id.number + 1, s.network_uid⟩⟩,
       { s with leader := false
                promises_received := some []
                nacks_received := some []
                proposal_id := ⟨s.highest_proposal_id.number + 1, s.network_uid⟩
                highest_proposal_id := ⟨s.highest_proposal_id.number + 1, s.network_uid⟩
                current_prepare_msg :=
                  some ⟨s.network_uid,
                        ⟨s.highest_proposal_id.number + 1, s.network_uid⟩⟩ }) := rfl

/-- Comparing any id against an absent one raises `TypeError`. -/
theorem pyGtOpt_none_right (x : Option ProposalID) :
    pyGtOpt x none = .error .typeError := by
  cases x <;> rfl

theorem observe_fields (s : ProposerState) (o : Option ProposalID) :
    (Proposer.observe_proposal s o).2.network_uid = s.network_uid ∧
    (Proposer.observe_proposal s o).2.quorum_size = s.quorum_size ∧
    (Proposer.observe_proposal s o).2.proposal_id = s.proposal_id ∧
    (Proposer.observe_proposal s o).2.nacks_received = s.nacks_received ∧
    (Proposer.observe_proposal s o).2.highest_accepted_id = s.highest_accepted_id ∧
    pidLe s.highest_proposal_id (Proposer.observe_proposal s o).2.highest_proposal_id := by
  unfold Proposer.observe_proposal
  cases o with
  | none => exact ⟨rfl, rfl, rfl, rfl, rfl, pidLe_refl _⟩
  | some p =>
      dsimp only
      split
      · next h => exact ⟨rfl, rfl, rfl, rfl, rfl, pidLe_of_lt h⟩
      · exact ⟨rfl, rfl, rfl, rfl, rfl, pidLe_refl _⟩

theorem observe_absorbs (s : ProposerState) (p : ProposalID) :
    pidLe p (Proposer.observe_proposal s (some p)).2.highest_proposal_id := by
  unfold Proposer.observe_proposal
  dsimp only
  split
  · exact pidLe_refl _
  · next h => exact pidLe_of_not_lt h

theorem propose_value_fields (s : ProposerState) (v : Value) :
    (Proposer.propose_value s v).2.network_uid = s.network_uid ∧
    (Proposer.propose_value s v).2.quorum_size = s.quorum_size ∧
    (Proposer.propose_value s v).2.proposal_id = s.proposal_id ∧
    (Proposer.propose_value s v).2.nacks_received = s.nacks_received ∧
    (Proposer.propose_value s v).2.highest_accepted_id = s.highest_accepted_id ∧
    (Proposer.propose_value s v).2.highest_proposal_id = s.highest_proposal_id := by
  unfold Proposer.propose_value
  repeat' split <;> simp

theorem receive_promise_fields (s : ProposerState) (m : PromiseMsg) :
    (Proposer.receive_promise s m).2.network_uid = s.network_uid ∧
    (Proposer.receive_promise s m).2.quorum_size = s.quorum_size ∧
    (Proposer.receive_promise s m).2.proposal_id = s.proposal_id ∧
    (Proposer.receive_promise s m).2.nacks_received = s.nacks_received ∧
    (Proposer.receive_promise s m).2.highest_proposal_id = s.highest_proposal_id := by
  unfold Proposer.receive_promise
  dsimp only
  repeat' split
  all_goals exact ⟨rfl, rfl, rfl, rfl, rfl⟩

theorem receive_promise_haid_none (s : ProposerState) (m : PromiseMsg)
    (h : s.highest_accepted_id = none) :
    (Proposer.receive_promise s m).2.highest_accepted_id = none := by
  unfold Proposer.receive_promise
  dsimp only
  repeat' split
  all_goals simp_all [pyGtOpt_none_right]

theorem receive_nack_fields (s : ProposerState) (m : NackMsg) :
    (Proposer.receive_nack s m).2.network_uid = s.network_uid ∧
    (Proposer.receive_nack s m).2.quorum_size = s.quorum_size ∧
    (Proposer.receive_nack s m).2.highest_accepted_id = s.highest_accepted_id ∧
    pidLe s.highest_proposal_id (Proposer.receive_nack s m).2.highest_proposal_id := by
  obtain ⟨hn, hq, hp, hk, ha, hh⟩ := observe_fields s m.promised_proposal_id
  unfold Proposer.receive_nack
  cases hobs : Proposer.observe_proposal s m.promised_proposal_id with
  | mk r s1 =>
      rw [hobs] at hn hq hp hk ha hh
      cases r with
      | error e => exact ⟨hn, hq, ha, hh⟩
      | ok u =>
          dsimp only
          repeat' split
          all_goals first
            | exact ⟨hn, hq, ha, hh⟩
            | (rw [prepare_spec]
               exact ⟨hn, hq, ha, pidLe_trans hh (Or.inl (Or.inl (lt_add_one _)))⟩)

/-- The proposal ids a single operation feeds to `observe_proposal`
(src: `receive_nack` forwards the Nack's `promised_proposal_id`; drivers
may call `observe_proposal` directly; `receive_promise` does not call it). -/
def opObserved : ProposerOp → List ProposalID
  | .observe (some p) => [p]
  | .nack m => m.promised_proposal_id.toList
  | _ => []

/-- All proposal ids observed along a sequence of operations. -/
def opsObserved : List ProposerOp → List ProposalID
  | [] => []
  | op :: rest => opObserved op ++ opsObserved rest

theorem receive_nack_absorbs (s : ProposerState) (m : NackMsg) (qq : ProposalID)
    (hq : m.promised_proposal_id = some qq) :
    pidLe qq (Proposer.receive_nack s m).2.highest_proposal_id := by
  have habs := observe_absorbs s qq
  unfold Proposer.receive_nack
  rw [hq]
  cases hobs : Proposer.observe_proposal s (some qq) with
  | mk r s1 =>
      rw [hobs] at habs
      cases r with
      | error e => exact habs
      | ok u =>
          dsimp only
          repeat' split
          all_goals first
            | exact habs
            | (rw [prepare_spec]
               exact pidLe_trans habs (Or.inl (Or.inl (lt_add_one _))))

theorem proposerStep_fields (s : ProposerState) (op : ProposerOp) :
    (proposerStep s op).network_uid = s.network_uid ∧
    (proposerStep s op).quorum_size = s.quorum_size ∧
    pidLe s.highest_proposal_id (proposerStep s op).highest_proposal_id := by
  cases op with
  | prep => exact ⟨rfl, rfl, Or.inl (Or.inl (lt_add_one _))⟩
  | propose v =>
      obtain ⟨h1, h2, _, _, _, h6⟩ := propose_value_fields s v
      exact ⟨h1, h2, by rw [show (proposerStep s (.propose v)).highest_proposal_id =
        s.highest_proposal_id from h6]; exact pidLe_refl _⟩
  | observe o =>
      obtain ⟨h1, h2, _, _, _, h6⟩ := observe_fields s o
      exact ⟨h1, h2, h6⟩
  | nack m =>
      obtain ⟨h1, h2, _, h4⟩ := receive_nack_fields s m
      exact ⟨h1, h2, h4⟩
  | promise m =>
      obtain ⟨h1, h2, _, _, h5⟩ := receive_promise_fields s m
      exact ⟨h1, h2, by rw [show (proposerStep s (.promise m)).highest_proposal_id =
        s.highest_proposal_id from h5]; exact pidLe_refl _⟩

theorem proposerStep_haid_none {s : ProposerState}
    (h : s.highest_accepted_id = none) (op : ProposerOp) :
    (proposerStep s op).highest_accepted_id = none := by
  cases op with
  | prep => exact h
  | propose v => exact ((propose_value_fields s v).2.2.2.2.1).trans h
  | observe o => exact ((observe_fields s o).2.2.2.2.1).trans h
  | nack m => exact ((receive_nack_fields s m).2.2.1).trans h
  | promise m => exact receive_promise_haid_none s m h

theorem receive_nack_inv {s : ProposerState} (h : PInv s) (m : NackMsg) :
    PInv (Proposer.receive_nack s m).2 ∧
    ((Proposer.receive_nack s m).2.proposal_id = s.proposal_id ∨
      pidLt s.proposal_id (Proposer.receive_nack s m).2.proposal_id) := by
  obtain ⟨hu, hle⟩ := h
  obtain ⟨hn, hq, hp, hk, ha, hh⟩ := observe_fields s m.promised_proposal_id
  unfold Proposer.receive_nack
  cases hobs : Proposer.observe_proposal s m.promised_proposal_id with
  | mk r s1 =>
      rw [hobs] at hn hq hp hk ha hh
      cases r with
      | error e =>
          exact ⟨⟨by rw [hp, hn, hu], by rw [hp]; exact pidLe_trans hle hh⟩, Or.inl hp⟩
      | ok u =>
          dsimp only
          repeat' split
          all_goals first
            | exact ⟨⟨by rw [hp, hn, hu], by rw [hp]; exact pidLe_trans hle hh⟩, Or.inl hp⟩
            | (rw [prepare_spec]
               refine ⟨⟨rfl, pidLe_refl _⟩, Or.inr (Or.inl ?_)⟩
               have hnum : s.proposal_id.number ≤ s1.highest_proposal_id.number :=
                 pidLe_number_le (pidLe_trans hle hh)
               dsimp only
               omega)

theorem proposerStep_inv {s : ProposerState} (h : PInv s) (op : ProposerOp) :
    PInv (proposerStep s op) := by
  obtain ⟨hu, hle⟩ := h
  cases op with
  | prep => exact ⟨rfl, pidLe_refl _⟩
  | propose v =>
      obtain ⟨h1, _, h3, _, _, h6⟩ := propose_value_fields s v
      simp only [PInv, proposerStep]
      exact ⟨by rw [h3, h1, hu], by rw [h3, h6]; exact hle⟩
  | observe o =>
      obtain ⟨h1, _, h3, _, _, h6⟩ := observe_fields s o
      simp only [PInv, proposerStep]
      exact ⟨by rw [h3, h1, hu], by rw [h3]; exact pidLe_trans hle h6⟩
  | nack m => exact (receive_nack_inv ⟨hu, hle⟩ m).1
  | promise m =>
      obtain ⟨h1, _, h3, _, h5⟩ := receive_promise_fields s m
      simp only [PInv, proposerStep]
      exact ⟨by rw [h3, h1, hu], by rw [h3, h5]; exact hle⟩

theorem proposerStep_pid_mono {s : ProposerState} (h : PInv s) (op : ProposerOp) :
    (proposerStep s op).proposal_id = s.proposal_id ∨
      pidLt s.proposal_id (proposerStep s op).proposal_id := by
  cases op with
  | prep =>
      right
      refine Or.inl ?_
      have := pidLe_number_le h.2
      show s.proposal_id.number < s.highest_proposal_id.number + 1
      omega
  | propose v => exact Or.inl (propose_value_fields s v).2.2.1
  | observe o => exact Or.inl (observe_fields s o).2.2.1
  | nack m => exact (receive_nack_inv h m).2
  | promise m => exact Or.inl (receive_promise_fields s m).2.2.1

theorem proposerStep_absorbs (s : ProposerState) (op : ProposerOp) :
    ∀ r ∈ opObserved op, pidLe r (proposerStep s op).highest_proposal_id := by
  cases op with
  | prep => intro r hr; cases hr
  | propose v => intro r hr; cases hr
  | promise m => intro r hr; cases hr
  | observe o =>
      cases o with
      | none => intro r hr; cases hr
      | some p =>
          intro r hr
          have hrp : r = p := List.mem_singleton.mp hr
          rw [hrp]
          exact observe_absorbs s p
  | nack m =>
      cases hq : m.promised_proposal_id with
      | none => intro r hr; simp [opObserved, hq] at hr
      | some qq =>
          intro r hr
          have hrq : r = qq := by simpa [opObserved, hq, Option.toList] using hr
          rw [hrq]
          exact receive_nack_absorbs s m qq hq

theorem runProposer_inv {s : ProposerState} (h : PInv s) (ops : List ProposerOp) :
    PInv (runProposer s ops) := by
  induction ops generalizing s with
  | nil => exact h
  | cons op rest ih => exact ih (proposerStep_inv h op)

theorem runProposer_net (s : ProposerState) (ops : List ProposerOp) :
    (runProposer s ops).network_uid = s.network_uid := by
  induction ops generalizing s with
  | nil => rfl
  | cons op rest ih =>
      exact (ih (proposerStep s op)).trans (proposerStep_fields s op).1

theorem runProposer_haid_none {s : ProposerState}
    (h : s.highest_accepted_id = none) (ops : List ProposerOp) :
    (runProposer s ops).highest_accepted_id = none := by
  induction ops generalizing s with
  | nil => exact h
  | cons op rest ih => exact ih (proposerStep_haid_none h op)

theorem runProposer_high_le (s : ProposerState) (ops : List ProposerOp) :
    pidLe s.highest_proposal_id (runProposer s ops).highest_proposal_id := by
  induction ops generalizing s with
  | nil => exact pidLe_refl _
  | cons op rest ih =>
      exact pidLe_trans (proposerStep_fields s op).2.2 (ih (proposerStep s op))

theorem runProposer_observed (s : ProposerState) (ops : List ProposerOp) :
    ∀ r ∈ opsObserved ops, pidLe r (runProposer s ops).highest_proposal_id := by
  induction ops generalizing s with
  | nil => intro r hr; cases hr
  | cons op rest ih =>
      intro r hr
      rcases List.mem_append.mp hr with h1 | h2
      · exact pidLe_trans (proposerStep_absorbs s op r h1)
          (runProposer_high_le (proposerStep s op) rest)
      · exact ih (proposerStep s op) r h2

theorem observe_some_eq (s : ProposerState) (p : ProposalID) :
    Proposer.observe_proposal s (some p) =
      (.ok (), (Proposer.observe_proposal s (some p)).2) := by
  unfold Proposer.observe_proposal
  dsimp only
  split <;> rfl

theorem receive_nack_quorum_prepare (s : ProposerState) (msg : NackMsg)
    (ns : List String) (qq : ProposalID)
    (h1 : s.nacks_received = some ns)
    (h2 : msg.promised_proposal_id = some qq)
    (h3 : msg.proposal_id = s.proposal_id)
    (h4 : pyLen (setAdd msg.from_uid ns) = s.quorum_size) :
    ∃ pm s',
      Proposer.receive_nack s msg = (.ok (some pm), s') ∧
      pm.proposal_id.number =
        (Proposer.observe_proposal s (some qq)).2.highest_proposal_id.number + 1 ∧
      pm.proposal_id.uid = s.network_uid := by
  obtain ⟨o1, o2, o3, o4, o5, o6⟩ := observe_fields s (some qq)
  unfold Proposer.receive_nack
  rw [h2, observe_some_eq s qq]
  dsimp only
  rw [if_pos (h3.trans o3.symm), o4.trans h1]
  dsimp only
  rw [if_pos (h4.trans o2.symm), prepare_spec]
  exact ⟨_, _, rfl, rfl, o1⟩

/- ## Claim theorems -/

/-- C1: the claim states that `Acceptor.receive_prepare` answers Promise
or Nack according to `msg.proposal_id >= promised_id`. On the code this
fails: the guard reads the misspelled attribute `msg.propsal_id` (src
line 252), so every call raises `AttributeError` with the acceptor state
untouched and no Promise or Nack is ever produced. -/
theorem claim_C1_receive_prepare_always_raises
    (s : AcceptorState) (msg : PrepareMsg) :
    Acceptor.receive_prepare s msg = (.error (.attrError "propsal_id"), s) := rfl

/-- C2: the claim states that when `msg.proposal_id >= promised_id` the
acceptor accepts and answers `Accepted`. On the code the accept branch
instead raises `AttributeError` reading the nonexistent `msg.promised_id`
(src line 272) before any assignment, so nothing is accepted. -/
theorem claim_C2_receive_accept_branch_raises
    (s : AcceptorState) (msg : AcceptMsg)
    (h : pyGeSomeOpt msg.proposal_id s.promised_id = .ok true) :
    Acceptor.receive_accept s msg = (.error (.attrError "promised_id"), s) := by
  unfold Acceptor.receive_accept
  rw [h]

/-- Witness for C2 at a concrete accept-branch input. -/
theorem claim_C2_witness :
    pyGeSomeOpt (ProposalID.mk 1 "X") (some (ProposalID.mk 0 "A")) = .ok true ∧
    Acceptor.receive_accept ⟨"A", some ⟨0, "A"⟩, none, none⟩ ⟨"X", ⟨1, "X"⟩, "v"⟩ =
      (.error (.attrError "promised_id"), ⟨"A", some ⟨0, "A"⟩, none, none⟩) :=
  ⟨rfl, claim_C2_receive_accept_branch_raises ⟨"A", some ⟨0, "A"⟩, none, none⟩
    ⟨"X", ⟨1, "X"⟩, "v"⟩ rfl⟩

/-- C3: the claim describes the value-adoption rule and its quorum
consequence. On the code the rule is unreachable: `highest_accepted_id`
stays `None` in every reachable proposer state (first conjunct), and the
comparison `msg.last_accepted_id > None` at src line 212 raises
`TypeError` on every promise that passes the guard — after the sender has
already been added to `promises_received` (second conjunct, evaluated at
the first promise of a fresh round). -/
theorem claim_C3_value_adoption_unreachable :
    (∀ (uid : String) (q : Int) (ops : List ProposerOp),
        (runProposer (Proposer.init uid q) ops).highest_accepted_id = none) ∧
    Proposer.receive_promise (Proposer.prepare (Proposer.init "X" 2)).2
        ⟨"A", "X", ⟨1, "X"⟩, none, none⟩ =
      (.error .typeError,
       { (Proposer.prepare (Proposer.init "X" 2)).2 with
           promises_received := some ["A"] }) := by
  refine ⟨fun uid q ops => runProposer_haid_none rfl ops, ?_⟩
  rfl

/-- C4: across any sequence of `receive_prepare` / `receive_accept`
deliveries, an acceptor that starts in a state satisfying the acceptor
invariant keeps satisfying it, and `promised_id` never decreases. (On
this code the property holds degenerately: both handlers raise before
mutating anything, so the durable triple never changes at all.) -/
theorem claim_C4_acceptor_monotone_invariant
    (s0 : AcceptorState) (h : AccInv s0) (ops : List AcceptorOp) :
    AccInv (runAcceptor s0 ops) ∧
      optPidLe s0.promised_id (runAcceptor s0 ops).promised_id := by
  rw [runAcceptor_eq]
  refine ⟨h, ?_⟩
  cases s0.promised_id with
  | none => trivial
  | some p => exact pidLe_refl p

/-- Witness for C4: a fresh acceptor fed one Prepare and one Accept. -/
theorem claim_C4_witness :
    AccInv (runAcceptor (Acceptor.init "A")
        [AcceptorOp.prep ⟨"X", ⟨1, "X"⟩⟩, AcceptorOp.acc ⟨"X", ⟨2, "X"⟩, "v"⟩]) ∧
      optPidLe (Acceptor.init "A").promised_id
        (runAcceptor (Acceptor.init "A")
            [AcceptorOp.prep ⟨"X", ⟨1, "X"⟩⟩,
             AcceptorOp.acc ⟨"X", ⟨2, "X"⟩, "v"⟩]).promised_id :=
  claim_C4_acceptor_monotone_invariant (Acceptor.init "A")
    (fun _ ha => Option.noConfusion ha) _

/-- C5: `prepare()` clears the leader flag, resets both received sets,
mints `proposal_id = (highest_proposal_id.number + 1, network_uid)`,
records it as the new `highest_proposal_id` and returns the Prepare
carrying it (first conjunct); along any operation sequence from a fresh
proposer, `proposal_id.uid` always equals `network_uid` (second), and
each further operation either keeps `proposal_id` unchanged or strictly
increases it in lexicographic order (third). -/
theorem claim_C5_prepare_monotone_proposals :
    (∀ s : ProposerState,
        (Proposer.prepare s).2.leader = false ∧
        (Proposer.prepare s).2.promises_received = some [] ∧
        (Proposer.prepare s).2.nacks_received = some [] ∧
        (Proposer.prepare s).2.proposal_id =
          ⟨s.highest_proposal_id.number + 1, s.network_uid⟩ ∧
        (Proposer.prepare s).2.highest_proposal_id =
          (Proposer.prepare s).2.proposal_id ∧
        (Proposer.prepare s).1 =
          ⟨s.network_uid, (Proposer.prepare s).2.proposal_id⟩) ∧
    (∀ (uid : String) (q : Int) (ops : List ProposerOp),
        (runProposer (Proposer.init uid q) ops).proposal_id.uid = uid) ∧
    (∀ (uid : String) (q : Int) (ops : List ProposerOp) (op : ProposerOp),
        (proposerStep (runProposer (Proposer.init uid q) ops) op).proposal_id =
            (runProposer (Proposer.init uid q) ops).proposal_id ∨
          pidLt (runProposer (Proposer.init uid q) ops).proposal_id
            (proposerStep (runProposer (Proposer.init uid q) ops) op).proposal_id) := by
  refine ⟨fun s => ⟨rfl, rfl, rfl, rfl, rfl, rfl⟩, ?_, ?_⟩
  · intro uid q ops
    have h := runProposer_inv (s := Proposer.init uid q) ⟨rfl, pidLe_refl _⟩ ops
    rw [h.1, runProposer_net]
    rfl
  · intro uid q ops op
    exact proposerStep_pid_mono (runProposer_inv ⟨rfl, pidLe_refl _⟩ ops) op

/-- C6: the claim states that an Accepted completing a quorum makes the
learner resolve and return a Resolution. On the code this is unreachable:
the very first Accepted from any acceptor hits the stale guard
`msg.proposal_id <= last_pn` with `last_pn = None` (src line 326), which
raises `TypeError` in Python 3, so no tally is ever recorded — shown here
at a learner whose quorum size is 1, where this message should have
resolved immediately. -/
theorem claim_C6_learner_resolution_unreachable :
    Learner.receive_accepted (Learner.init "L" 1) ⟨"A", ⟨1, "X"⟩, "v"⟩ =
      (.error .typeError, Learner.init "L" 1) := rfl

/-- C7: when the Nack that completes a quorum of distinct nackers for the
current round arrives, `receive_nack` returns a new Prepare whose number
strictly exceeds the pre-call `highest_proposal_id`, the promised id
carried by this Nack, and every proposal id observed along the whole
operation history, and whose uid is this proposer's `network_uid`. -/
theorem claim_C7_nack_quorum_new_prepare_dominates
    (uid : String) (q : Int) (ops : List ProposerOp) (msg : NackMsg)
    (ns : List String) (qq : ProposalID)
    (h1 : (runProposer (Proposer.init uid q) ops).nacks_received = some ns)
    (h2 : msg.promised_proposal_id = some qq)
    (h3 : msg.proposal_id = (runProposer (Proposer.init uid q) ops).proposal_id)
    (h4 : pyLen (setAdd msg.from_uid ns) =
        (runProposer (Proposer.init uid q) ops).quorum_size) :
    ∃ pm s',
      Proposer.receive_nack (runProposer (Proposer.init uid q) ops) msg =
        (.ok (some pm), s') ∧
      (runProposer (Proposer.init uid q) ops).highest_proposal_id.number <
        pm.proposal_id.number ∧
      qq.number < pm.proposal_id.number ∧
      (∀ r ∈ opsObserved ops, r.number < pm.proposal_id.number) ∧
      pm.proposal_id.uid = uid := by
  obtain ⟨pm, s', heq, hnum, huid⟩ :=
    receive_nack_quorum_prepare (runProposer (Proposer.init uid q) ops)
      msg ns qq h1 h2 h3 h4
  refine ⟨pm, s', heq, ?_, ?_, ?_, ?_⟩
  · have h :=
      pidLe_number_le
        (observe_fields (runProposer (Proposer.init uid q) ops) (some qq)).2.2.2.2.2
    omega
  · have h :=
      pidLe_number_le (observe_absorbs (runProposer (Proposer.init uid q) ops) qq)
    omega
  · intro r hr
    have ha := pidLe_number_le (runProposer_observed (Proposer.init uid q) ops r hr)
    have hb :=
      pidLe_number_le
        (observe_fields (runProposer (Proposer.init uid q) ops) (some qq)).2.2.2.2.2
    omega
  · rw [huid, runProposer_net]
    rfl

/-- Witness for C7: proposer X with quorum 1 prepares round (1, X), then
one Nack promising (5, Z) completes the quorum; the new Prepare's number
is 6. -/
theorem claim_C7_witness :
    ∃ pm s',
      Proposer.receive_nack (runProposer (Proposer.init "X" 1) [ProposerOp.prep])
          ⟨"A", "X", ⟨1, "X"⟩, some ⟨5, "Z"⟩⟩ = (.ok (some pm), s') ∧
      (runProposer (Proposer.init "X" 1) [ProposerOp.prep]).highest_proposal_id.number <
        pm.proposal_id.number ∧
      (ProposalID.mk 5 "Z").number < pm.proposal_id.number ∧
      (∀ r ∈ opsObserved [ProposerOp.prep], r.number < pm.proposal_id.number) ∧
      pm.proposal_id.uid = "X" :=
  claim_C7_nack_quorum_new_prepare_dominates "X" 1 [ProposerOp.prep]
    ⟨"A", "X", ⟨1, "X"⟩, some ⟨5, "Z"⟩⟩ [] ⟨5, "Z"⟩ rfl rfl rfl rfl

/-- C8: the claim's learner half states that an Accepted from an acceptor
with no prior recorded proposal id is treated as not stale. On the code
the guard evaluates `msg.proposal_id <= None` and raises `TypeError`
(src line 326): the message is neither treated as fresh nor dropped, and
the learner records nothing. -/
theorem claim_C8_learner_first_contact_raises :
    Learner.receive_accepted (Learner.init "L" 2) ⟨"B", ⟨1, "X"⟩, "v"⟩ =
      (.error .typeError, Learner.init "L" 2) := rfl

/-- C9: the claim states that `receive(msg)` raises the invalid-message
signal exactly when no handler exists and otherwise yields the handler's
result. The error half is right (third conjunct), but the routing half is
not: the source looks the handler up and never calls it, so dispatching
an Accept to an acceptor returns `None` (first conjunct) even though the
handler itself would have returned a Nack (second conjunct). -/
theorem claim_C9_dispatch_drops_handler_result :
    MessageHandler.receive acceptorHandled (.accept ⟨"X", ⟨1, "X"⟩, "v"⟩) = .ok () ∧
    Acceptor.receive_accept ⟨"A", some ⟨5, "A"⟩, none, none⟩ ⟨"X", ⟨1, "X"⟩, "v"⟩ =
      (.ok (.nack ⟨"A", "X", ⟨1, "X"⟩, some ⟨5, "A"⟩⟩),
       ⟨"A", some ⟨5, "A"⟩, none, none⟩) ∧
    MessageHandler.receive acceptorHandled (.resolution ⟨"X", "v"⟩) =
      .error .invalidMessageError :=
  ⟨rfl, rfl, rfl⟩

/-- C10: the claim states both rejection branches return a Nack and leave
the acceptor fields unchanged. For Accept that is what the code does
(second conjunct), but for Prepare the guard raises `AttributeError`
(misspelled `msg.propsal_id`, src line 252) before the rejection branch
can run (first conjunct). -/
theorem claim_C10_reject_branch_frame :
    Acceptor.receive_prepare ⟨"B", some ⟨7, "B"⟩, none, none⟩ ⟨"Y", ⟨2, "Y"⟩⟩ =
      (.error (.attrError "propsal_id"), ⟨"B", some ⟨7, "B"⟩, none, none⟩) ∧
    Acceptor.receive_accept ⟨"B", some ⟨7, "B"⟩, none, none⟩ ⟨"Y", ⟨2, "Y"⟩, "w"⟩ =
      (.ok (.nack ⟨"B", "Y", ⟨2, "Y"⟩, some ⟨7, "B"⟩⟩),
       ⟨"B", some ⟨7, "B"⟩, none, none⟩) :=
  ⟨rfl, rfl⟩

end Paxos
